import Mathlib

/-!
Verification of the token-indirection and streaming-proxy subsystem of
`src/main.py` (CineVerse), against its natural-language specification.

Python dictionaries (`_stream_map`, `_movie_cache`) are embedded as finite
maps `String → Option V`; wall-clock time (`time.time()`) is an explicit
`Int` parameter threaded through the operations that read it.
-/

namespace CineVerse

/-- A Python `dict` with string keys, as a finite map. -/
def PyDict (V : Type) : Type := String → Option V

/-- `d[k] = v` (unconditional upsert, as Python dict assignment). -/
def dset {V : Type} (m : PyDict V) (k : String) (v : V) : PyDict V :=
  fun q => if q = k then some v else m q

/-- `del d[k]` (removal of the binding for `k`). -/
def ddel {V : Type} (m : PyDict V) (k : String) : PyDict V :=
  fun q => if q = k then none else m q

/-- The empty dict `{}`. -/
def dempty {V : Type} : PyDict V := fun _ => none

/-! ### Token store (`_stream_map`, src/main.py:1080)

The source issues a token inline at six call sites, always as
`token = str(uuid.uuid4().hex); _stream_map[token] = str(d_url)`
(e.g. src/main.py:837-838); the random 32-hex-character identifier is an
explicit argument here.  Resolution is `_stream_map.get(token)`
(src/main.py:1148, 1157). -/

/-- `issue`: store the mapping `token -> url` in the stream map
(`_stream_map[token] = str(d_url)`). -/
def issue (m : PyDict String) (token url : String) : PyDict String :=
  dset m token url

/-- `resolve`: `_stream_map.get(token)`. -/
def resolve (m : PyDict String) (token : String) : Option String :=
  m token

/-! ### TTL cache (`_movie_cache`, src/main.py:124-138)

Entries pair the cached value with the timestamp at which it was stored;
`now` stands for `time.time()` at the moment of the call. -/

/-- `_cache_ttl = 600` (10 minutes, src/main.py:125). -/
def _cache_ttl : Int := 600

/-- `get_cached(key)` (src/main.py:127-134): if the key is present and the
entry is younger than the TTL, return its value and leave the cache as it
is; if it is present but stale, delete it and return `None`; if absent,
return `None`.  The result pairs the returned value with the cache after
the call. -/
def get_cached {V : Type} (m : PyDict (V × Int)) (key : String) (now : Int) :
    Option V × PyDict (V × Int) :=
  match m key with
  | some (value, timestamp) =>
      if now - timestamp < _cache_ttl then (some value, m)
      else (none, ddel m key)
  | none => (none, m)

/-- `set_cached(key, value)` (src/main.py:136-138): store the value with the
current timestamp. -/
def set_cached {V : Type} (m : PyDict (V × Int)) (key : String) (value : V)
    (now : Int) : PyDict (V × Int) :=
  dset m key (value, now)

/-! ### Stream proxy engine (src/main.py:1082-1135) and routes (1137-1160)

The inbound FastAPI `Request` is embedded as its header list plus its query
parameters; the network is an oracle `send` mapping the headers of the
upstream GET request built by the engine to either an exception message
(anything raised by `proxy_client.build_request`/`send`, src/main.py:1100-1101)
or an upstream response.  The upstream response body is a list of events as
delivered by `response.aiter_bytes` (src/main.py:1117): byte chunks, possibly
cut short by a read error. -/

/-- An inbound HTTP request as the route handlers receive it. -/
structure Request where
  headers : List (String × String)
  query : List (String × String)

/-- ASCII lowercasing of a string, character by character. -/
def str_lower (s : String) : String := ⟨s.data.map Char.toLower⟩

/-- `request.headers.get(k)` — Starlette header lookup, case-insensitive in
the header name (the code queries the lowercase name `"range"`,
src/main.py:1095). -/
def header_get (req : Request) (k : String) : Option String :=
  (req.headers.find? (fun p => str_lower p.1 == k)).map Prod.snd

/-- Header lookup in a header list the engine builds itself
(keys are used verbatim there). -/
def hget (hs : List (String × String)) (k : String) : Option String :=
  (hs.find? (fun p => p.1 == k)).map Prod.snd

/-- The fixed impersonation header set sent upstream (src/main.py:1089-1093). -/
def impersonation_headers : List (String × String) :=
  [("User-Agent", "Mozilla/5.0 (Windows NT 10.0; Win64; x64) AppleWebKit/537.36"),
   ("Referer", "https://fmoviesunblocked.net/"),
   ("Origin", "https://h5.aoneroom.com")]

/-- Headers of the upstream GET request (src/main.py:1089-1098): the fixed
impersonation set, plus the inbound `Range` header verbatim when the
truthiness check `if range_header:` accepts it — that check is falsy both
for a missing header (`None`) and for a present-but-empty value (`""`), so
an empty inbound `Range` is not forwarded. -/
def build_upstream_headers (req : Request) : List (String × String) :=
  match header_get req "range" with
  | some r =>
      if r = "" then impersonation_headers
      else impersonation_headers ++ [("Range", r)]
  | none => impersonation_headers

/-- One event of the upstream body iteration: a chunk of bytes yielded by
`response.aiter_bytes`, or a read error raised mid-stream. -/
inductive ChunkEvent where
  | chunk (bytes : List Nat)
  | ioError (msg : String)
deriving DecidableEq

/-- The upstream response as the engine consumes it: status code, the three
headers it inspects, and the body event stream. -/
structure UpstreamResponse where
  status_code : Nat
  contentType : Option String
  contentLength : Option String
  contentRange : Option String
  body : List ChunkEvent

/-- The network oracle standing for `proxy_client.build_request` + `send`:
from the headers of the built upstream request to an exception message or
an upstream response. -/
def SendOracle : Type :=
  List (String × String) → Except String UpstreamResponse

/-- Outbound response headers (src/main.py:1104-1112): always
`Accept-Ranges: bytes`; `Content-Type` from upstream with default
`video/mp4`; `Content-Length` and `Content-Range` copied only when the
upstream sent them. -/
def build_response_headers (r : UpstreamResponse) : List (String × String) :=
  let hs := [("Accept-Ranges", "bytes"),
             ("Content-Type", r.contentType.getD "video/mp4")]
  let hs := match r.contentLength with
            | some cl => hs ++ [("Content-Length", cl)]
            | none => hs
  match r.contentRange with
  | some cr => hs ++ [("Content-Range", cr)]
  | none => hs

/-- What happened while iterating the upstream body: normal exhaustion, or a
read error after some chunks, each recording the chunks yielded so far. -/
inductive IterOutcome where
  | done (sent : List (List Nat))
  | failed (sent : List (List Nat)) (msg : String)
deriving DecidableEq

/-- The raw `async for chunk in response.aiter_bytes(...)` loop
(src/main.py:1117-1118): yields chunks in order until the stream ends or a
read error is raised. -/
def aiter_bytes : List ChunkEvent → IterOutcome
  | [] => .done []
  | .chunk b :: rest =>
      match aiter_bytes rest with
      | .done s => .done (b :: s)
      | .failed s m => .failed (b :: s) m
  | .ioError m :: _ => .failed [] m

/-- Observable outcome of the `stream_video` generator: chunks forwarded to
the client in order, whether an exception escaped the generator, and
whether `response.aclose()` ran. -/
structure StreamOutcome where
  sent : List (List Nat)
  raised : Bool
  closed : Bool
deriving DecidableEq

/-- The `stream_video` body generator (src/main.py:1114-1122): relay chunks;
`except Exception` swallows a mid-stream read error after logging it, and
the `finally` block always closes the upstream response. -/
def stream_video (body : List ChunkEvent) : StreamOutcome :=
  match aiter_bytes body with
  | .done sent => { sent := sent, raised := false, closed := true }
  | .failed sent _ => { sent := sent, raised := false, closed := true }

/-- Result of a route handler or of `stream_engine`: an `HTTPException`
(status code and detail, no body bytes), or a `StreamingResponse` carrying
the upstream status code, the built headers, and the body outcome. -/
inductive EngineResult where
  | httpError (status_code : Nat) (detail : String)
  | streaming (status_code : Nat) (headers : List (String × String))
      (body : StreamOutcome)
deriving DecidableEq

/-- `stream_engine(url, request)` (src/main.py:1082-1135): empty URL is a
400 (`if not url`); any exception while building or sending the upstream
request becomes a 500 `Proxy error: ...`; otherwise the outbound response
reuses the upstream status code, carries the built headers, and streams the
body through `stream_video`. -/
def stream_engine (url : String) (req : Request) (send : SendOracle) :
    EngineResult :=
  if url = "" then .httpError 400 "Missing URL"
  else
    match send (build_upstream_headers req) with
    | .error e => .httpError 500 ("Proxy error: " ++ e)
    | .ok response =>
        .streaming response.status_code (build_response_headers response)
          (stream_video response.body)

/-- Route `GET /v/{token}/{filename}` (src/main.py:1142-1151):
`real_url = _stream_map.get(token); if not real_url:` — the falsy check
covers both a missing key and an empty stored URL — else delegate to the
engine.  The `filename` path segment is decorative. -/
def stream_secure_ott (m : PyDict String) (token filename : String)
    (req : Request) (send : SendOracle) : EngineResult :=
  match m token with
  | none => .httpError 404 "Secure link expired"
  | some real_url =>
      if real_url = "" then .httpError 404 "Secure link expired"
      else stream_engine real_url req send

/-- Routes `GET /stream/{token}` and `GET /stream/{token}/{filename}`
(src/main.py:1153-1160): same shape with `filename = None` allowed and a
different detail string. -/
def stream_by_token (m : PyDict String) (token : String)
    (filename : Option String) (req : Request) (send : SendOracle) :
    EngineResult :=
  match m token with
  | none => .httpError 404 "Stream link expired"
  | some real_url =>
      if real_url = "" then .httpError 404 "Stream link expired"
      else stream_engine real_url req send

/-! ### Secure URL builder (`make_secure_url`, src/main.py:412-430)

`now` stands for `int(time.time())` and `uuid_hex` for `uuid.uuid4().hex`,
the 32-hex-character random string the signature is cut from.  The regular
expressions are modelled on the ASCII reading of `\w` (alphanumeric or
underscore) and `\s`. -/

/-- Python `str.strip()`: drop leading and trailing whitespace
(src/main.py:417). -/
def py_strip (s : String) : String :=
  ⟨((s.data.dropWhile Char.isWhitespace).reverse.dropWhile
      Char.isWhitespace).reverse⟩

/-- `re.sub(r'[^\w\s\-\.]', '', s)` (src/main.py:418): keep word
characters, whitespace, hyphen and dot, drop everything else. -/
def strip_specials (s : String) : String :=
  ⟨s.data.filter (fun c =>
    c.isAlphanum || c == '_' || c.isWhitespace || c == '-' || c == '.')⟩

/-- `re.sub(r'\s+', '.', s)` (src/main.py:419): each maximal whitespace run
becomes a single dot.  `inRun` records whether the current run has already
emitted its dot. -/
def ws_to_dot (inRun : Bool) : List Char → List Char
  | [] => []
  | c :: cs =>
      if c.isWhitespace then
        if inRun then ws_to_dot true cs else '.' :: ws_to_dot true cs
      else c :: ws_to_dot false cs

/-- The title sanitization of `make_secure_url` (src/main.py:417-419):
`str(title).strip()`, then the two `re.sub` passes. -/
def sanitize_title (title : String) : String :=
  ⟨ws_to_dot false (strip_specials (py_strip title)).data⟩

/-- The sanitizer exactly as the claim words it (for comparison with the
code): strip the characters outside word characters, whitespace, hyphen
and dot, then collapse each whitespace run to a single dot — with no
trimming of leading or trailing whitespace. -/
def spec_sanitize (label : String) : String :=
  ⟨ws_to_dot false (strip_specials label).data⟩

/-- `str(quality).replace(" ", "").replace(".", "")`, with `"HD"` when the
result is empty (src/main.py:427-428). -/
def clean_quality (quality : String) : String :=
  let q_str : String := ⟨quality.data.filter (fun c => c != ' ' && c != '.')⟩
  if q_str = "" then "HD" else q_str

/-- `make_secure_url(token, title, quality)` (src/main.py:412-430): expiry
is 6 hours (21600 s) past `now`, and the signature is `uuid.uuid4().hex[:8]`. -/
def make_secure_url (token title quality : String) (now : Nat)
    (uuid_hex : String) : String :=
  let safe_title := sanitize_title title
  let exp := now + 21600
  let sig : String := ⟨uuid_hex.data.take 8⟩
  let q_str := clean_quality quality
  "/v/" ++ token ++ "/" ++ safe_title ++ "." ++ q_str ++ ".mp4?token=exp="
    ++ toString exp ++ "&sig=" ++ sig

end CineVerse

namespace CineVerse

@[simp] theorem dset_self {V : Type} (m : PyDict V) (k : String) (v : V) :
    dset m k v k = some v := by
  simp [dset]

@[simp] theorem dset_other {V : Type} (m : PyDict V) (k q : String) (v : V)
    (h : q ≠ k) : dset m k v q = m q := by
  simp [dset, h]

@[simp] theorem ddel_self {V : Type} (m : PyDict V) (k : String) :
    ddel m k k = none := by
  simp [ddel]

@[simp] theorem ddel_other {V : Type} (m : PyDict V) (k q : String)
    (h : q ≠ k) : ddel m k q = m q := by
  simp [ddel, h]

/-- **C1.** Token store round-trip: issuing a token `t` for an upstream URL
`u` and resolving `t` immediately afterwards returns exactly `u`. -/
theorem token_roundtrip (m : PyDict String) (t u : String) :
    resolve (issue m t u) t = some u := by
  simp [resolve, issue]

/-- **C5.** TTL cache semantics: after `set(k,v)` at time `t0`,
a `get(k)` strictly less than the 600-second TTL later returns `v`;
once the TTL has elapsed, `get(k)` returns absent and deletes the entry
from the map; a subsequent `set(k,v2)` starts a fresh window, so `get(k)`
immediately returns `v2` rather than the old data. -/
theorem cache_ttl_semantics {V : Type} (m : PyDict (V × Int)) (k : String)
    (v v2 : V) (t0 d now t1 : Int)
    (hd0 : 0 ≤ d) (hfresh : d < _cache_ttl) (hstale : _cache_ttl ≤ now - t0) :
    (get_cached (set_cached m k v t0) k (t0 + d)).1 = some v
    ∧ get_cached (set_cached m k v t0) k now
        = (none, ddel (set_cached m k v t0) k)
    ∧ (ddel (set_cached m k v t0) k) k = none
    ∧ (get_cached
         (set_cached (get_cached (set_cached m k v t0) k now).2 k v2 t1)
         k t1).1 = some v2 := by
  simp only [_cache_ttl] at hfresh hstale
  refine ⟨?_, ?_, ?_, ?_⟩
  · have hcond : t0 + d - t0 < (600 : Int) := by omega
    simp [get_cached, set_cached, _cache_ttl, hcond, hfresh]
  · have hcond : ¬ (now - t0 < (600 : Int)) := by omega
    simp [get_cached, set_cached, _cache_ttl, hcond]
  · simp
  · have hcond : ¬ (now - t0 < (600 : Int)) := by omega
    have hcond2 : t1 - t1 < (600 : Int) := by omega
    simp [get_cached, set_cached, _cache_ttl, hcond, hcond2]

/-- Witness for `cache_ttl_semantics` at a concrete cache and times. -/
theorem cache_ttl_semantics_witness :
    ((get_cached (set_cached (dempty (V := Nat × Int)) "k" 7 100) "k"
        (100 + 599)).1 = some 7
    ∧ get_cached (set_cached (dempty (V := Nat × Int)) "k" 7 100) "k" 700
        = (none, ddel (set_cached (dempty (V := Nat × Int)) "k" 7 100) "k")
    ∧ (ddel (set_cached (dempty (V := Nat × Int)) "k" 7 100) "k") "k" = none
    ∧ (get_cached
         (set_cached
           (get_cached (set_cached (dempty (V := Nat × Int)) "k" 7 100) "k"
             700).2 "k" 9 700)
         "k" 700).1 = some 9) :=
  cache_ttl_semantics dempty "k" 7 9 100 599 700 700 (by decide) (by decide)
    (by decide)

/-- **C10.** Cache reads never extend validity: a `get(k)` on a fresh entry
returns the value and leaves the cache map exactly as it was (same entry,
same stored timestamp, every other key untouched), and at any time at
least one TTL after the stored timestamp a `get(k)` on that map returns
absent — so the entry expires at `stored_at + TTL` however many fresh gets
intervene; only `set` resets the window. -/
theorem cache_get_frame {V : Type} (m : PyDict (V × Int)) (k : String)
    (v : V) (ts now later : Int)
    (hentry : m k = some (v, ts)) (hfresh : now - ts < _cache_ttl) :
    get_cached m k now = (some v, m)
    ∧ (_cache_ttl ≤ later - ts → (get_cached m k later).1 = none) := by
  constructor
  · simp [get_cached, hentry, hfresh]
  · intro hlater
    have hge : ¬ (later - ts < _cache_ttl) := by omega
    simp [get_cached, hentry, hge]

/-- **C2.** Unknown token: for a token that was never issued, each of the
three streaming routes (`/v/{token}/{filename}`, `/stream/{token}`,
`/stream/{token}/{filename}`) answers with an `HTTPException` of status 404
whose detail mentions expiry — never a 500. -/
theorem unknown_token_is_404 (m : PyDict String) (token filename : String)
    (req : Request) (send : SendOracle) (hnone : m token = none) :
    stream_secure_ott m token filename req send
      = .httpError 404 "Secure link expired"
    ∧ stream_by_token m token (some filename) req send
      = .httpError 404 "Stream link expired"
    ∧ stream_by_token m token none req send
      = .httpError 404 "Stream link expired" := by
  refine ⟨?_, ?_, ?_⟩ <;> simp [stream_secure_ott, stream_by_token, hnone]

/-- Witness for `unknown_token_is_404` on the empty stream map. -/
theorem unknown_token_is_404_witness :
    (stream_secure_ott dempty "t" "f.mp4" ⟨[], []⟩ (fun _ => .error "refused")
      = .httpError 404 "Secure link expired"
    ∧ stream_by_token dempty "t" (some "f.mp4") ⟨[], []⟩
        (fun _ => .error "refused")
      = .httpError 404 "Stream link expired"
    ∧ stream_by_token dempty "t" none ⟨[], []⟩ (fun _ => .error "refused")
      = .httpError 404 "Stream link expired") :=
  unknown_token_is_404 dempty "t" "f.mp4" ⟨[], []⟩ (fun _ => .error "refused")
    rfl

/-- **C3.** Stream proxy response construction: for every upstream response
the outbound response reuses the upstream status code; its headers hold
`Content-Type` equal to the upstream's (defaulting to `video/mp4` when
absent), `Content-Length` exactly when the upstream sent one,
`Content-Range` exactly when the upstream sent one, and always
`Accept-Ranges: bytes`. -/
theorem response_construction (url : String) (req : Request)
    (send : SendOracle) (r : UpstreamResponse) (hurl : url ≠ "")
    (hsend : send (build_upstream_headers req) = .ok r) :
    stream_engine url req send
      = .streaming r.status_code (build_response_headers r)
          (stream_video r.body)
    ∧ hget (build_response_headers r) "Accept-Ranges" = some "bytes"
    ∧ hget (build_response_headers r) "Content-Type"
        = some (r.contentType.getD "video/mp4")
    ∧ hget (build_response_headers r) "Content-Length" = r.contentLength
    ∧ hget (build_response_headers r) "Content-Range" = r.contentRange := by
  obtain ⟨s, ct, cl, cr, b⟩ := r
  refine ⟨by simp [stream_engine, hurl, hsend], ?_, ?_, ?_, ?_⟩ <;>
    cases cl <;> cases cr <;> rfl

/-- Witness for `response_construction` at a concrete upstream response. -/
theorem response_construction_witness :
    (stream_engine "http://u/x.mp4" ⟨[], []⟩
        (fun _ => .ok ⟨206, some "video/mp4", some "100",
          some "bytes 100-199/1000", [.chunk [1, 2]]⟩)
      = .streaming 206
          (build_response_headers
            ⟨206, some "video/mp4", some "100", some "bytes 100-199/1000",
              [.chunk [1, 2]]⟩)
          (stream_video [.chunk [1, 2]])
    ∧ hget (build_response_headers
        ⟨206, some "video/mp4", some "100", some "bytes 100-199/1000",
          [.chunk [1, 2]]⟩) "Accept-Ranges" = some "bytes"
    ∧ hget (build_response_headers
        ⟨206, some "video/mp4", some "100", some "bytes 100-199/1000",
          [.chunk [1, 2]]⟩) "Content-Type"
        = some ((some "video/mp4").getD "video/mp4")
    ∧ hget (build_response_headers
        ⟨206, some "video/mp4", some "100", some "bytes 100-199/1000",
          [.chunk [1, 2]]⟩) "Content-Length" = some "100"
    ∧ hget (build_response_headers
        ⟨206, some "video/mp4", some "100", some "bytes 100-199/1000",
          [.chunk [1, 2]]⟩) "Content-Range" = some "bytes 100-199/1000") :=
  response_construction "http://u/x.mp4" ⟨[], []⟩
    (fun _ => .ok ⟨206, some "video/mp4", some "100",
      some "bytes 100-199/1000", [.chunk [1, 2]]⟩)
    ⟨206, some "video/mp4", some "100", some "bytes 100-199/1000",
      [.chunk [1, 2]]⟩
    (by decide) rfl

/-- **C4 counterexample.** The claim says a present inbound `Range` header
is always forwarded, but the code guards the forwarding with the
truthiness check `if range_header:` (src/main.py:1096): an inbound request
carrying `Range` with an empty value has the header, yet the upstream
request consists of the impersonation set alone. -/
theorem upstream_range_truthiness_counterexample :
    header_get ⟨[("range", "")], []⟩ "range" = some ""
    ∧ build_upstream_headers ⟨[("range", "")], []⟩ = impersonation_headers
    ∧ build_upstream_headers ⟨[("range", "")], []⟩
      ≠ impersonation_headers ++ [("Range", "")] := by
  refine ⟨rfl, rfl, by decide⟩

/-- **C4 (amended).** Upstream request construction: the upstream GET
request carries exactly the fixed impersonation header set (`User-Agent`,
`Referer`, `Origin`) plus — if and only if the inbound request has a
`Range` header with a non-empty value — that `Range` header verbatim
(the truthiness check `if range_header:` drops a present-but-empty
`Range` just like a missing one); every header of the upstream request is
one of the fixed three or the forwarded non-empty `Range`, so no other
inbound client header is ever forwarded. -/
theorem upstream_request_headers (req : Request) :
    (header_get req "range" = none →
      build_upstream_headers req = impersonation_headers)
    ∧ (header_get req "range" = some "" →
      build_upstream_headers req = impersonation_headers)
    ∧ (∀ r, r ≠ "" → header_get req "range" = some r →
        build_upstream_headers req = impersonation_headers ++ [("Range", r)])
    ∧ (∀ h ∈ build_upstream_headers req,
        h ∈ impersonation_headers
        ∨ (h.1 = "Range" ∧ h.2 ≠ ""
            ∧ header_get req "range" = some h.2)) := by
  refine ⟨?_, ?_, ?_, ?_⟩
  · intro hnone
    simp [build_upstream_headers, hnone]
  · intro hempty
    simp [build_upstream_headers, hempty]
  · intro r hne hsome
    simp [build_upstream_headers, hsome, hne]
  · intro h hmem
    cases hr : header_get req "range" with
    | none =>
        simp only [build_upstream_headers, hr] at hmem
        exact Or.inl hmem
    | some r0 =>
        by_cases hr0 : r0 = ""
        · rw [hr0] at hr
          simp only [build_upstream_headers, hr, if_pos rfl] at hmem
          exact Or.inl hmem
        · simp only [build_upstream_headers, hr, if_neg hr0,
            List.mem_append, List.mem_singleton] at hmem
          rcases hmem with hmem | hmem
          · exact Or.inl hmem
          · right
            rw [hmem]
            exact ⟨rfl, hr0, rfl⟩

/-- Witness for `upstream_request_headers`: an inbound request with a
non-empty `Range` header gets it forwarded after the impersonation set. -/
theorem upstream_request_headers_witness :
    build_upstream_headers ⟨[("range", "bytes=100-199")], []⟩
      = impersonation_headers ++ [("Range", "bytes=100-199")] :=
  (upstream_request_headers ⟨[("range", "bytes=100-199")], []⟩).2.2.1
    "bytes=100-199" (by decide) rfl

/-- The body loop relays an error-free prefix of chunks unchanged. -/
theorem aiter_bytes_of_chunks (bs : List (List Nat)) :
    aiter_bytes (bs.map ChunkEvent.chunk) = .done bs := by
  induction bs with
  | nil => rfl
  | cons b t ih => simp [aiter_bytes, ih]

/-- The body loop stops at the first read error, keeping the chunks
delivered before it and dropping everything after it. -/
theorem aiter_bytes_stops_at_error (bs : List (List Nat))
    (post : List ChunkEvent) (msg : String) :
    aiter_bytes (bs.map ChunkEvent.chunk ++ ChunkEvent.ioError msg :: post)
      = .failed bs msg := by
  induction bs with
  | nil => rfl
  | cons b t ih => simp [aiter_bytes, ih]

/-- **C7.** Mid-stream failure handling: when a read error occurs while
relaying the upstream body, the generator forwards exactly the chunks
received before the error and none after it, raises nothing to the client,
and closes the upstream response; on normal completion it forwards all
chunks and likewise closes; in every case the generator raises no error and
releases the upstream connection. -/
theorem midstream_failure (bs : List (List Nat)) (post : List ChunkEvent)
    (msg : String) :
    stream_video (bs.map ChunkEvent.chunk ++ ChunkEvent.ioError msg :: post)
      = { sent := bs, raised := false, closed := true }
    ∧ stream_video (bs.map ChunkEvent.chunk)
      = { sent := bs, raised := false, closed := true }
    ∧ (∀ body, (stream_video body).raised = false
        ∧ (stream_video body).closed = true) := by
  refine ⟨?_, ?_, ?_⟩
  · simp [stream_video, aiter_bytes_stops_at_error]
  · simp [stream_video, aiter_bytes_of_chunks]
  · intro body
    unfold stream_video
    cases aiter_bytes body <;> simp

/-- **C8.** Pre-stream failure handling: if sending the upstream request
fails before any body byte is relayed, `stream_engine` surfaces an
`HTTPException` with 5xx status 500 whose detail is `Proxy error: ` followed
by the underlying cause, and carries no partial body (the `httpError`
result has no body at all). -/
theorem prestream_failure (url : String) (req : Request)
    (send : SendOracle) (e : String) (hurl : url ≠ "")
    (hsend : send (build_upstream_headers req) = .error e) :
    stream_engine url req send = .httpError 500 ("Proxy error: " ++ e) := by
  simp [stream_engine, hurl, hsend]

/-- Witness for `prestream_failure` with a concrete refused connection. -/
theorem prestream_failure_witness :
    stream_engine "http://u/x.mp4" ⟨[], []⟩ (fun _ => .error "refused")
      = .httpError 500 ("Proxy error: " ++ "refused") :=
  prestream_failure "http://u/x.mp4" ⟨[], []⟩ (fun _ => .error "refused")
    "refused" (by decide) rfl

/-- **C9.** The `exp` and `sig` query fields are decorative: two requests to
a token streaming route that differ only in their query string (in
particular in `exp`/`sig`, or with them omitted) get identical treatment —
no handler or engine component reads the query. -/
theorem exp_sig_decorative (m : PyDict String) (token filename : String)
    (hs : List (String × String)) (q1 q2 : List (String × String))
    (send : SendOracle) :
    stream_secure_ott m token filename ⟨hs, q1⟩ send
      = stream_secure_ott m token filename ⟨hs, q2⟩ send
    ∧ stream_by_token m token (some filename) ⟨hs, q1⟩ send
      = stream_by_token m token (some filename) ⟨hs, q2⟩ send
    ∧ stream_by_token m token none ⟨hs, q1⟩ send
      = stream_by_token m token none ⟨hs, q2⟩ send :=
  ⟨rfl, rfl, rfl⟩

/-- Whitespace collapsing leaves no whitespace in its output: every
character it emits is either a dot or a non-whitespace input character. -/
theorem ws_to_dot_no_ws (cs : List Char) :
    ∀ (b : Bool), ∀ c ∈ ws_to_dot b cs, c.isWhitespace = false := by
  induction cs with
  | nil => intro b c hc; simp [ws_to_dot] at hc
  | cons c0 t ih =>
      intro b c hc
      cases hw : c0.isWhitespace with
      | true =>
          simp only [ws_to_dot, hw, if_true] at hc
          cases b with
          | true => exact ih true c hc
          | false =>
              rcases List.mem_cons.mp hc with hc | hc
              · rw [hc]; decide
              · exact ih true c hc
      | false =>
          simp only [ws_to_dot, hw, Bool.false_eq_true, if_false] at hc
          rcases List.mem_cons.mp hc with hc | hc
          · rw [hc]; exact hw
          · exact ih false c hc

/-- **C6 counterexample.** The claim's sanitizer (strip the disallowed
characters, then collapse whitespace runs to dots, with no trimming) sends
the label `" Movie"` to `".Movie"`, but the code trims the title first
(`str(title).strip()`, src/main.py:417) and emits `"Movie"`: at this input
the produced URL differs from the shape the claim predicts. -/
theorem make_secure_url_claim_counterexample :
    spec_sanitize " Movie" = ".Movie"
    ∧ make_secure_url "t" " Movie" "720p" 0
        "0123456789abcdef0123456789abcdef"
      = "/v/t/Movie.720p.mp4?token=exp=21600&sig=01234567"
    ∧ make_secure_url "t" " Movie" "720p" 0
        "0123456789abcdef0123456789abcdef"
      ≠ "/v/t/" ++ spec_sanitize " Movie" ++ "." ++ clean_quality "720p"
        ++ ".mp4?token=exp=" ++ toString (0 + 21600) ++ "&sig="
        ++ "01234567" := by
  refine ⟨by decide, by decide, by decide⟩

/-- **C6 (amended).** Secure URL builder: for every token, label and
quality tag, the output is the path
`/v/{token}/{s}.{q}.mp4?token=exp={now+21600}&sig={uuid_hex[:8]}`, where
`s` first trims leading and trailing whitespace from the label and then
applies the claim's sanitizer (strip characters outside word characters,
whitespace, hyphen, dot; collapse each whitespace run to a single dot), `q`
is the quality tag with spaces and dots removed, defaulting to `HD` when
empty, the expiry is the current time plus 6 hours, and the signature is 8
hex characters cut from the random 32-hex-character `uuid_hex`; the
sanitized label contains no whitespace, and the claim's example holds:
label `"The Movie: Part 2!"` yields segment `"The.Movie.Part.2"`. -/
theorem make_secure_url_shape (token title quality : String) (now : Nat)
    (uuid_hex : String) (hlen : uuid_hex.data.length = 32) :
    make_secure_url token title quality now uuid_hex
      = "/v/" ++ token ++ "/" ++ spec_sanitize (py_strip title) ++ "."
        ++ clean_quality quality ++ ".mp4?token=exp="
        ++ toString (now + 21600) ++ "&sig="
        ++ (⟨uuid_hex.data.take 8⟩ : String)
    ∧ (⟨uuid_hex.data.take 8⟩ : String).data.length = 8
    ∧ (∀ c ∈ (spec_sanitize (py_strip title)).data, c.isWhitespace = false)
    ∧ spec_sanitize "The Movie: Part 2!" = "The.Movie.Part.2"
    ∧ clean_quality "" = "HD" := by
  refine ⟨rfl, ?_, ?_, by decide, by decide⟩
  · simp [hlen]
  · intro c hc
    exact ws_to_dot_no_ws _ false c hc

/-- Witness for `make_secure_url_shape` at concrete inputs. -/
theorem make_secure_url_shape_witness :
    (make_secure_url "tok" "The Movie: Part 2!" "1080p" 1000
        "0123456789abcdef0123456789abcdef"
      = "/v/" ++ "tok" ++ "/"
        ++ spec_sanitize (py_strip "The Movie: Part 2!") ++ "."
        ++ clean_quality "1080p" ++ ".mp4?token=exp="
        ++ toString (1000 + 21600) ++ "&sig="
        ++ (⟨("0123456789abcdef0123456789abcdef" : String).data.take 8⟩ :
              String)
    ∧ (⟨("0123456789abcdef0123456789abcdef" : String).data.take 8⟩ :
          String).data.length = 8
    ∧ (∀ c ∈ (spec_sanitize (py_strip "The Movie: Part 2!")).data,
        c.isWhitespace = false)
    ∧ spec_sanitize "The Movie: Part 2!" = "The.Movie.Part.2"
    ∧ clean_quality "" = "HD") :=
  make_secure_url_shape "tok" "The Movie: Part 2!" "1080p" 1000
    "0123456789abcdef0123456789abcdef" (by decide)

/-- Witness for `cache_get_frame` at a concrete cache and times. -/
theorem cache_get_frame_witness :
    (get_cached (dset (dempty (V := Nat × Int)) "k" (7, 100)) "k" 400
        = (some 7, dset (dempty (V := Nat × Int)) "k" (7, 100))
    ∧ (_cache_ttl ≤ 700 - 100 →
        (get_cached (dset (dempty (V := Nat × Int)) "k" (7, 100)) "k"
          700).1 = none)) :=
  cache_get_frame (dset dempty "k" (7, 100)) "k" 7 100 400 700 (by decide)
    (by decide)

end CineVerse
